import Mathlib

/-!
Shallow embedding of the dark-matter analysis tutorial notebook
(tcap2021DM.ipynb): the flux-normalization computation, the
spectral-model parameter setup, the likelihood-profile scan loop,
and the flux-ratio cross-section derivation (limit deriver).
-/

/-- A model parameter as held by the spectral model's parameter store:
current value, valid range, scale factor and the free/fixed flag used by
the external optimizer. -/
structure Param (α : Type) where
  value : α
  minv : α
  maxv : α
  scalef : α
  isfree : Bool

namespace Param

/-- Assign the parameter's current value, as value(v) in the notebook. -/
def setValue {α : Type} (p : Param α) (v : α) : Param α :=
  { p with value := v }

/-- Assign the parameter's scale factor, as scale(s) in the notebook. -/
def setScale {α : Type} (p : Param α) (s : α) : Param α :=
  { p with scalef := s }

/-- Assign the parameter's valid range, as range(lo, hi) in the notebook. -/
def setRange {α : Type} (p : Param α) (lo hi : α) : Param α :=
  { p with minv := lo, maxv := hi }

/-- Mark the parameter free for the optimizer, as free() in the notebook. -/
def free {α : Type} (p : Param α) : Param α :=
  { p with isfree := true }

/-- Remove the parameter from the optimizer's free set, as fix() in the
notebook. -/
def fix {α : Type} (p : Param α) : Param α :=
  { p with isfree := false }

/-- Modelled from the spec: the parameter store's set(value) operation
raises OutOfRangeError exactly when the value lies outside the declared
range and the parameter is free (the checking code lives in the external
gammalib parameter class, not in the notebook). -/
def setRejects (p : Param ℝ) (v : ℝ) : Prop :=
  p.isfree = true ∧ (v < p.minv ∨ p.maxv < v)

end Param

/-- The spectral-model parameter state the notebook manipulates: the
Mass, Channel and Normalization parameters of the table model. -/
structure DMSpec where
  massP : Param ℝ
  channelP : Param ℝ
  normP : Param ℝ

/-- The overall flux normalization of the model, from the notebook:
fluxnorm = jfactor * sigmav / (8 * pi * mass^2), then scaled by 1.0e-3. -/
noncomputable def fluxnorm (jfactor sigmav mass : ℝ) : ℝ :=
  jfactor * sigmav / (8 * Real.pi * mass ^ 2) * 1.0e-3

/-- The spectral-model setup cell of the notebook, applied to the state
the table file was loaded with: set Mass, set Channel, set the Channel
scale to 1, set Normalization to the given fluxnorm, and set the
Normalization range to [0.0, 1.0e+20]. -/
noncomputable def setupDMSpec (init : DMSpec) (mass channel fn : ℝ) : DMSpec :=
  let s1 : DMSpec := { init with massP := init.massP.setValue mass }
  let s2 : DMSpec := { s1 with channelP := s1.channelP.setValue channel }
  let s3 : DMSpec := { s2 with channelP := s2.channelP.setScale 1 }
  let s4 : DMSpec := { s3 with normP := s3.normP.setValue fn }
  { s4 with normP := s4.normP.setRange 0.0 1.0e20 }

/-- The error vocabulary of the limit deriver. -/
inductive DMErr where
  | DegenerateReferenceError
  deriving DecidableEq

/-- Modelled from the spec: the measured annihilation cross-section
meas_sigmav is left as an exercise in the notebook (the cell only prints
it); the spec defines it as measured_or_limit_cross_section =
(measured_or_limit_flux / reference_flux) * reference_cross_section with
precondition reference_flux > 0, failing with DegenerateReferenceError
otherwise, the degenerate case being validated before the ratio is
taken. -/
def meas_sigmav (flux refFlux refSigmav : ℚ) : Except DMErr ℚ :=
  if 0 < refFlux then Except.ok (flux / refFlux * refSigmav)
  else Except.error DMErr.DegenerateReferenceError

/-- Modelled from the spec: the cross-section upper limit ul_sigmav is
left as an incomplete assignment in the notebook; it is the same
flux-ratio rescaling as meas_sigmav, applied to the integrated-flux upper
limit returned by the external limit finder. -/
def ul_sigmav (ulimitFlux refFlux refSigmav : ℚ) : Except DMErr ℚ :=
  if 0 < refFlux then Except.ok (ulimitFlux / refFlux * refSigmav)
  else Except.error DMErr.DegenerateReferenceError

/-- The scan grid size of the likelihood-profile cell: npoints = 50. -/
def npoints : Nat := 50

/-- The exponent step of the scan grid, from the notebook:
width_s = (-6 - (-28)) / (npoints - 1). -/
noncomputable def width_s : ℝ :=
  (-6 - (-28)) / ((npoints : ℝ) - 1)

/-- The trial normalization values of the likelihood-profile scan, from
the notebook: 10 ** (-28 + i * width_s) for i in range(npoints). -/
noncomputable def norma_r : List ℝ :=
  (List.range npoints).map
    (fun i : ℕ => (10 : ℝ) ^ ((-28 : ℝ) + (i : ℝ) * width_s))

/-- The outcome of running the profile-scan loop: the final state of the
swept parameter, the recorded log-likelihood values in order, the number
of invocations of the external fit primitive, and whether the loop ran
to completion (false when an invocation raised and aborted the loop). -/
structure ScanResult (α β : Type) where
  param : Param α
  lls : List β
  calls : Nat
  ok : Bool

/-- The ll_values loop of the notebook: for each trial value in order,
set the swept parameter to it and invoke the external fit primitive
(like.run() followed by reading like.opt().value(), modelled as a single
call returning the optimized log-likelihood, or none when the fit
raises).  A raised fit aborts the loop; the log-likelihoods recorded
before it are kept, and no later trial is attempted. -/
def ll_values {α β : Type} (fit : α → Option β) (p : Param α) :
    List α → ScanResult α β
  | [] => ⟨p, [], 0, true⟩
  | n :: ns =>
    match fit n with
    | none => ⟨p.setValue n, [], 1, false⟩
    | some ll =>
      let r := ll_values fit (p.setValue n) ns
      ⟨r.param, ll :: r.lls, r.calls + 1, r.ok⟩

/-- The profile-scan cells of the notebook in order: fix the swept
Normalization parameter, then run the ll_values loop over the trial
values. -/
def profileScan {α β : Type} (fit : α → Option β) (p : Param α)
    (ns : List α) : ScanResult α β :=
  ll_values fit p.fix ns

/-- C1: for every measured (or limit) flux and every reference flux > 0,
the limit deriver returns the flux ratio times the reference cross
section, for both the measured and the upper-limit branch. -/
theorem limit_deriver_ratio (flux refFlux refSigmav : ℚ) (h : 0 < refFlux) :
    meas_sigmav flux refFlux refSigmav
      = Except.ok (flux / refFlux * refSigmav) ∧
    ul_sigmav flux refFlux refSigmav
      = Except.ok (flux / refFlux * refSigmav) := by
  constructor <;> simp [meas_sigmav, ul_sigmav, if_pos h]

/-- Witness for C1 at flux = 3, reference flux = 2, reference cross
section = 5. -/
theorem limit_deriver_ratio_witness :
    0 < (2 : ℚ) ∧
    (meas_sigmav 3 2 5 = Except.ok (3 / 2 * 5) ∧
      ul_sigmav 3 2 5 = Except.ok (3 / 2 * 5)) :=
  ⟨by norm_num, limit_deriver_ratio 3 2 5 (by norm_num)⟩

/-- C2: applying the limit deriver with the measured flux equal to the
reference flux returns exactly the reference cross section (the flux
ratio is 1), for every positive reference flux — in particular for the
reference integrated flux over [0.03 TeV, mass] of every mass/channel
combination of the table. -/
theorem limit_deriver_round_trip (refFlux refSigmav : ℚ) (h : 0 < refFlux) :
    meas_sigmav refFlux refFlux refSigmav = Except.ok refSigmav := by
  simp [meas_sigmav, if_pos h, div_self (ne_of_gt h)]

/-- Witness for C2 at reference flux 7 and reference cross section 9. -/
theorem limit_deriver_round_trip_witness :
    0 < (7 : ℚ) ∧ meas_sigmav 7 7 9 = Except.ok 9 :=
  ⟨by norm_num, limit_deriver_round_trip 7 9 (by norm_num)⟩

/-- C8: the limit deriver requires a positive reference flux; whenever
the reference flux is not positive it fails with
DegenerateReferenceError instead of dividing. -/
theorem limit_deriver_degenerate (flux refFlux refSigmav : ℚ)
    (h : refFlux ≤ 0) :
    meas_sigmav flux refFlux refSigmav
      = Except.error DMErr.DegenerateReferenceError := by
  simp [meas_sigmav, if_neg (not_lt.mpr h)]

/-- Witness for C8 at a zero reference flux. -/
theorem limit_deriver_degenerate_witness :
    (0 : ℚ) ≤ 0 ∧
    meas_sigmav 3 0 5 = Except.error DMErr.DegenerateReferenceError :=
  ⟨le_refl 0, limit_deriver_degenerate 3 0 5 (le_refl 0)⟩

/-- C3: fluxnorm is jfactor * sigmav / (8 * pi * mass^2) * 1e-3, and at
jfactor = 1.8621e18, mass = 5000, sigmav = 2.7e-22 the setup cell
assigns exactly this value to the Normalization parameter. -/
theorem fluxnorm_assigned (init : DMSpec) :
    fluxnorm 1.8621e18 2.7e-22 5000
      = 1.8621e18 * 2.7e-22 / (8 * Real.pi * 5000 ^ 2) * 1.0e-3 ∧
    (setupDMSpec init 5000 8 (fluxnorm 1.8621e18 2.7e-22 5000)).normP.value
      = fluxnorm 1.8621e18 2.7e-22 5000 :=
  ⟨rfl, rfl⟩

/-- The trial list of the 10-point scan used to exercise the scan
loop's failure behavior. -/
def trials10 : List ℕ := List.range 10

/-- A fit primitive that fails at the single interior trial value 5 and
returns a log-likelihood everywhere else. -/
def failFit (n : ℕ) : Option ℕ := if n = 5 then none else some 0

/-- An initial swept-parameter state for exercising the scan loop. -/
def p0 : Param ℕ := ⟨0, 0, 0, 1, true⟩

/-- C4 counterexample: in a 10-point scan whose external fit primitive
fails at the single interior trial value 5, the scan loop does not
return 10 points; it aborts, keeping only the 5 log-likelihoods recorded
before the failure, and the scan is flagged as not having run to
completion. -/
theorem scan_abort_counterexample :
    (profileScan failFit p0 trials10).lls.length ≠ 10 ∧
    (profileScan failFit p0 trials10).lls.length = 5 ∧
    (profileScan failFit p0 trials10).ok = false := by
  decide

/-- C4 amended: when the external fit primitive succeeds on every trial
value before some failing trial value, the scan loop aborts at the
failure instead of continuing: it records exactly the log-likelihoods of
the preceding trials, invokes the primitive once more for the failing
trial and never for the later ones, and flags the scan as incomplete. -/
theorem scan_abort_on_failure {β : Type} (fit : ℝ → Option β) (p : Param ℝ)
    (pre post : List ℝ) (n : ℝ)
    (hpre : ∀ m ∈ pre, (fit m).isSome) (hn : fit n = none) :
    (ll_values fit p (pre ++ n :: post)).lls.length = pre.length ∧
    (ll_values fit p (pre ++ n :: post)).calls = pre.length + 1 ∧
    (ll_values fit p (pre ++ n :: post)).ok = false := by
  induction pre generalizing p with
  | nil => simp [ll_values, hn]
  | cons a as ih =>
    have ha : (fit a).isSome := hpre a (by simp)
    obtain ⟨lla, hla⟩ := Option.isSome_iff_exists.mp ha
    have h := ih (p.setValue a) (fun m hm => hpre m (by simp [hm]))
    simp [ll_values, hla, h.1, h.2.1, h.2.2]

/-- Witness for C4 amended: a scan whose only trial value makes the fit
primitive fail aborts with one invocation and no recorded points. -/
theorem scan_abort_on_failure_witness :
    (∀ m ∈ ([] : List ℝ), ((fun _ : ℝ => (none : Option ℝ)) m).isSome) ∧
    (fun _ : ℝ => (none : Option ℝ)) 0 = none ∧
    ((ll_values (fun _ : ℝ => (none : Option ℝ)) ⟨0, 0, 0, 1, true⟩
        (([] : List ℝ) ++ 0 :: [1])).lls.length = ([] : List ℝ).length ∧
      (ll_values (fun _ : ℝ => (none : Option ℝ)) ⟨0, 0, 0, 1, true⟩
        (([] : List ℝ) ++ 0 :: [1])).calls = ([] : List ℝ).length + 1 ∧
      (ll_values (fun _ : ℝ => (none : Option ℝ)) ⟨0, 0, 0, 1, true⟩
        (([] : List ℝ) ++ 0 :: [1])).ok = false) :=
  ⟨fun m hm => absurd hm (List.not_mem_nil m), rfl,
    scan_abort_on_failure (fun _ : ℝ => (none : Option ℝ))
      ⟨0, 0, 0, 1, true⟩ [] [1] 0
      (fun m hm => absurd hm (List.not_mem_nil m)) rfl⟩

/-- C5: over every trial sequence, with an external fit primitive that
always returns a value, the scan loop invokes the primitive exactly once
per trial value (no early termination, no caching), runs to completion,
and records exactly one log-likelihood per trial value in the order of
the input sequence. -/
theorem scan_counts_and_order {β : Type} (g : ℝ → β) (p : Param ℝ)
    (ns : List ℝ) :
    (ll_values (fun x => some (g x)) p ns).lls = ns.map g ∧
    (ll_values (fun x => some (g x)) p ns).calls = ns.length ∧
    (ll_values (fun x => some (g x)) p ns).ok = true := by
  induction ns generalizing p with
  | nil => simp [ll_values]
  | cons a as ih =>
    have h := ih (p.setValue a)
    simp [ll_values, h.1, h.2.1, h.2.2]

/-- The scan loop never changes the free/fixed flag of the swept
parameter: the final flag equals the flag of the state the loop
started from. -/
theorem ll_values_param_isfree {α β : Type} (fit : α → Option β)
    (p : Param α) (ns : List α) :
    (ll_values fit p ns).param.isfree = p.isfree := by
  induction ns generalizing p with
  | nil => rfl
  | cons a as ih =>
    cases h : fit a with
    | none => simp [ll_values, h, Param.setValue]
    | some ll => simp [ll_values, h, ih, Param.setValue]

/-- C6: the profile scan fixes the swept parameter before the loop, and
after the scan the parameter is still fixed exactly as that initial step
left it — the scan never restores it to free, whatever the fit primitive
returns, whatever the trial sequence, and whatever state the parameter
started in. -/
theorem scan_leaves_parameter_fixed {α β : Type} (fit : α → Option β)
    (p : Param α) (ns : List α) :
    (profileScan fit p ns).param.isfree = false := by
  rw [profileScan, ll_values_param_isfree]
  rfl

/-- C7: the trial sequence consists of the 50 values
10 ^ (-28 + i * (22/49)) for i = 0..49 — log-spaced with exponent step
width_s = 22/49 — has 10^-28 as its first and 10^-6 as its last element
(both ends inclusive), and is strictly increasing. -/
theorem norma_r_grid :
    norma_r
      = (List.range 50).map
          (fun i : ℕ => (10 : ℝ) ^ ((-28 : ℝ) + (i : ℝ) * (22 / 49))) ∧
    norma_r.length = 50 ∧
    norma_r[0]? = some ((10 : ℝ) ^ (-28 : ℝ)) ∧
    norma_r[49]? = some ((10 : ℝ) ^ (-6 : ℝ)) ∧
    norma_r.Pairwise (· < ·) := by
  have hw : width_s = 22 / 49 := by
    unfold width_s npoints
    norm_num
  have hform : norma_r
      = (List.range 50).map
          (fun i : ℕ => (10 : ℝ) ^ ((-28 : ℝ) + (i : ℝ) * (22 / 49))) := by
    unfold norma_r npoints
    rw [hw]
  refine ⟨hform, ?_, ?_, ?_, ?_⟩
  · rw [hform]
    simp
  · rw [hform]
    rw [List.getElem?_map, List.getElem?_range (by norm_num)]
    norm_num
  · rw [hform]
    rw [List.getElem?_map, List.getElem?_range (by norm_num)]
    norm_num
  · rw [hform]
    refine List.Pairwise.map _ ?_ (List.pairwise_lt_range 50)
    intro a b hab
    rw [Real.rpow_lt_rpow_left_iff (by norm_num)]
    have hc : (a : ℝ) < (b : ℝ) := Nat.cast_lt.mpr hab
    nlinarith

/-- A concrete initial parameter state, used to instantiate the model
setup on explicit inputs. -/
noncomputable def dmspec0 : DMSpec :=
  ⟨⟨1, 0, 1, 1, true⟩, ⟨1, 0, 1, 1, true⟩, ⟨1, 0, 1, 1, true⟩⟩

/-- C9: the cross section enters the model only as a multiplicative
normalization: for fixed jfactor and mass, replacing sigmav by k * sigmav
(k > 0) multiplies the Normalization value assigned by the setup by
exactly k, and leaves the Mass parameter, the Channel parameter, and the
Normalization range, scale factor and free flag unchanged. -/
theorem sigmav_scales_normalization (init : DMSpec) (j m ch s k : ℝ)
    (_hk : 0 < k) :
    (setupDMSpec init m ch (fluxnorm j (k * s) m)).normP.value
      = k * (setupDMSpec init m ch (fluxnorm j s m)).normP.value ∧
    (setupDMSpec init m ch (fluxnorm j (k * s) m)).massP
      = (setupDMSpec init m ch (fluxnorm j s m)).massP ∧
    (setupDMSpec init m ch (fluxnorm j (k * s) m)).channelP
      = (setupDMSpec init m ch (fluxnorm j s m)).channelP ∧
    (setupDMSpec init m ch (fluxnorm j (k * s) m)).normP.minv
      = (setupDMSpec init m ch (fluxnorm j s m)).normP.minv ∧
    (setupDMSpec init m ch (fluxnorm j (k * s) m)).normP.maxv
      = (setupDMSpec init m ch (fluxnorm j s m)).normP.maxv ∧
    (setupDMSpec init m ch (fluxnorm j (k * s) m)).normP.scalef
      = (setupDMSpec init m ch (fluxnorm j s m)).normP.scalef ∧
    (setupDMSpec init m ch (fluxnorm j (k * s) m)).normP.isfree
      = (setupDMSpec init m ch (fluxnorm j s m)).normP.isfree := by
  refine ⟨?_, rfl, rfl, rfl, rfl, rfl, rfl⟩
  show fluxnorm j (k * s) m = k * fluxnorm j s m
  unfold fluxnorm
  ring

/-- Witness for C9 at the notebook's inputs and k = 2. -/
theorem sigmav_scales_normalization_witness :
    0 < (2 : ℝ) ∧
    ((setupDMSpec dmspec0 5000 8 (fluxnorm 1.8621e18 (2 * 2.7e-22) 5000)).normP.value
        = 2 * (setupDMSpec dmspec0 5000 8 (fluxnorm 1.8621e18 2.7e-22 5000)).normP.value ∧
      (setupDMSpec dmspec0 5000 8 (fluxnorm 1.8621e18 (2 * 2.7e-22) 5000)).massP
        = (setupDMSpec dmspec0 5000 8 (fluxnorm 1.8621e18 2.7e-22 5000)).massP ∧
      (setupDMSpec dmspec0 5000 8 (fluxnorm 1.8621e18 (2 * 2.7e-22) 5000)).channelP
        = (setupDMSpec dmspec0 5000 8 (fluxnorm 1.8621e18 2.7e-22 5000)).channelP ∧
      (setupDMSpec dmspec0 5000 8 (fluxnorm 1.8621e18 (2 * 2.7e-22) 5000)).normP.minv
        = (setupDMSpec dmspec0 5000 8 (fluxnorm 1.8621e18 2.7e-22 5000)).normP.minv ∧
      (setupDMSpec dmspec0 5000 8 (fluxnorm 1.8621e18 (2 * 2.7e-22) 5000)).normP.maxv
        = (setupDMSpec dmspec0 5000 8 (fluxnorm 1.8621e18 2.7e-22 5000)).normP.maxv ∧
      (setupDMSpec dmspec0 5000 8 (fluxnorm 1.8621e18 (2 * 2.7e-22) 5000)).normP.scalef
        = (setupDMSpec dmspec0 5000 8 (fluxnorm 1.8621e18 2.7e-22 5000)).normP.scalef ∧
      (setupDMSpec dmspec0 5000 8 (fluxnorm 1.8621e18 (2 * 2.7e-22) 5000)).normP.isfree
        = (setupDMSpec dmspec0 5000 8 (fluxnorm 1.8621e18 2.7e-22 5000)).normP.isfree) :=
  ⟨by norm_num,
    sigmav_scales_normalization dmspec0 1.8621e18 5000 8 2.7e-22 2 (by norm_num)⟩

/-- C10: every trial value of the scan grid lies strictly inside the
Normalization range [0, 1.0e20] declared by the model setup, so the
parameter store's out-of-range rejection cannot fire on any value
assignment performed by the scan loop. -/
theorem norma_r_within_range (init : DMSpec) (m ch fn v : ℝ)
    (hv : v ∈ norma_r) :
    (0 < v ∧ v < 1.0e20) ∧
    ¬ Param.setRejects (setupDMSpec init m ch fn).normP v := by
  have hw : width_s = 22 / 49 := by
    unfold width_s npoints
    norm_num
  unfold norma_r at hv
  obtain ⟨i, hi, rfl⟩ := List.mem_map.mp hv
  have hi49 : (i : ℝ) ≤ 49 := by
    have : i < 50 := by simpa [npoints] using List.mem_range.mp hi
    exact_mod_cast Nat.lt_succ_iff.mp this
  have hpos : 0 < (10 : ℝ) ^ ((-28 : ℝ) + (i : ℝ) * width_s) :=
    Real.rpow_pos_of_pos (by norm_num) _
  have h20 : (10 : ℝ) ^ ((-28 : ℝ) + (i : ℝ) * width_s) < (10 : ℝ) ^ (20 : ℝ) := by
    rw [Real.rpow_lt_rpow_left_iff (by norm_num)]
    rw [hw]
    nlinarith
  have h1020 : (10 : ℝ) ^ (20 : ℝ) = 1.0e20 := by
    rw [show (20 : ℝ) = ((20 : ℕ) : ℝ) by norm_num, Real.rpow_natCast]
    norm_num
  have hlt : (10 : ℝ) ^ ((-28 : ℝ) + (i : ℝ) * width_s) < 1.0e20 := h1020 ▸ h20
  have hmin : (setupDMSpec init m ch fn).normP.minv = 0.0 := rfl
  have hmax : (setupDMSpec init m ch fn).normP.maxv = 1.0e20 := rfl
  refine ⟨⟨hpos, hlt⟩, ?_⟩
  rintro ⟨-, hbad | hbad⟩
  · rw [hmin] at hbad
    norm_num at hbad
    linarith
  · rw [hmax] at hbad
    linarith

/-- Witness for C10: the smallest trial value 10^-28, checked against
the setup instantiated at the notebook's inputs. -/
theorem norma_r_within_range_witness :
    ((10 : ℝ) ^ (-28 : ℝ) ∈ norma_r) ∧
    ((0 < (10 : ℝ) ^ (-28 : ℝ) ∧ (10 : ℝ) ^ (-28 : ℝ) < 1.0e20) ∧
      ¬ Param.setRejects (setupDMSpec dmspec0 5000 8 0).normP
          ((10 : ℝ) ^ (-28 : ℝ))) := by
  have h0 : (0 : ℕ) ∈ List.range npoints := by
    simp [npoints]
  have hmem : (10 : ℝ) ^ (-28 : ℝ) ∈ norma_r := by
    unfold norma_r
    have h := List.mem_map_of_mem
      (fun i : ℕ => (10 : ℝ) ^ ((-28 : ℝ) + (i : ℝ) * width_s)) h0
    simpa using h
  exact ⟨hmem, norma_r_within_range dmspec0 5000 8 0 _ hmem⟩
